import Mathlib

/-!
Shallow embedding of the websitebuilder server (schema, storage layer,
HTTP route layer) and proofs of its specification claims.

Source files embedded:
- the drizzle schema (`pgTable` declarations and the zod insert schemas),
- `src/server/storage.ts` (`DatabaseStorage`),
- `src/routes.ts` (`registerRoutes`).

Modelling conventions:
- The relational store is a `DB` structure holding one list of rows per
  table, a serial-id counter per table, and a clock `now` that supplies
  `defaultNow()` timestamps (timestamps are `Nat`).
- `serial` primary keys are assigned from the per-table counter on insert,
  as the database would.
- A nullable text column is `Option String` in a row; an optional field of
  a parsed insert payload is also `Option` (`none` = field not supplied).
  The SQL distinction between an explicit NULL and an omitted field is
  collapsed into `none`; no claim depends on it.
- drizzle's `.set(obj)` skips keys whose value is `undefined`; `setCol`
  models this for optional payload fields.
- `select ... limit 1` returns the first row of the table list;
  `update/delete ... where eq(col, v)` touch exactly the rows matching `v`,
  and their SQL `rowCount` is the number of matched rows.
-/

namespace WebsiteBuilder

/-- Row of the `site_config` table: serial id, required `company_name`, and
the optional branding / contact / social / SEO text columns, in schema
order. Columns with a `.default(...)` still store `Option String`; the
default is applied at insert time. -/
structure SiteConfigRow where
  id : Nat
  companyName : String
  heroTitle : Option String
  heroDescription : Option String
  aboutTitle : Option String
  aboutDescription : Option String
  logoUrl : Option String
  faviconUrl : Option String
  primaryColor : Option String
  secondaryColor : Option String
  accentColor : Option String
  textColor : Option String
  backgroundColor : Option String
  fontFamily : Option String
  email : Option String
  phone : Option String
  address : Option String
  facebookUrl : Option String
  twitterUrl : Option String
  instagramUrl : Option String
  linkedinUrl : Option String
  siteTitle : Option String
  seoDescription : Option String
  seoKeywords : Option String
  metaDescription : Option String
  metaKeywords : Option String
  deriving Repr, DecidableEq

/-- Parsed payload of `insertSiteConfigSchema`: `id` omitted,
`companyName` required (notNull, not listed among the `.extend` optional
overrides), every other field `z.string().optional()`. -/
structure InsertSiteConfig where
  companyName : String
  heroTitle : Option String := none
  heroDescription : Option String := none
  aboutTitle : Option String := none
  aboutDescription : Option String := none
  logoUrl : Option String := none
  faviconUrl : Option String := none
  primaryColor : Option String := none
  secondaryColor : Option String := none
  accentColor : Option String := none
  textColor : Option String := none
  backgroundColor : Option String := none
  fontFamily : Option String := none
  email : Option String := none
  phone : Option String := none
  address : Option String := none
  facebookUrl : Option String := none
  twitterUrl : Option String := none
  instagramUrl : Option String := none
  linkedinUrl : Option String := none
  siteTitle : Option String := none
  seoDescription : Option String := none
  seoKeywords : Option String := none
  metaDescription : Option String := none
  metaKeywords : Option String := none
  deriving Repr, DecidableEq

/-- Row of the `projects` table. `created_at` is `timestamp.defaultNow()`;
every insert goes through `insertProjectSchema`, which omits it, so the
stored value is always the server clock at insert time, modelled as `Nat`. -/
structure ProjectRow where
  id : Nat
  title : String
  description : String
  category : String
  status : String
  imageUrl : Option String
  createdAt : Nat
  deriving Repr, DecidableEq

/-- Parsed payload of `insertProjectSchema` (`createInsertSchema(projects)`
omitting `id` and `createdAt`): `title`, `description`, `category` are
notNull without default hence required; `status` has a column default so it
is optional; `imageUrl` is nullable hence optional. -/
structure InsertProject where
  title : String
  description : String
  category : String
  status : Option String := none
  imageUrl : Option String := none
  deriving Repr, DecidableEq

/-- Parsed payload of `insertProjectSchema.partial()`: every field of
`InsertProject` becomes optional. `id` and `createdAt` are absent from the
insert schema, so the partial schema cannot carry them either. -/
structure PartialInsertProject where
  title : Option String := none
  description : Option String := none
  category : Option String := none
  status : Option String := none
  imageUrl : Option String := none
  deriving Repr, DecidableEq

/-- Row of the `products` table; `price` is display text (`text` column). -/
structure ProductRow where
  id : Nat
  title : String
  description : String
  price : String
  imageUrl : Option String
  status : String
  createdAt : Nat
  deriving Repr, DecidableEq

/-- Parsed payload of `insertProductSchema` (omits `id`, `createdAt`):
`title`, `description`, `price` required; `imageUrl` nullable hence
optional; `status` defaulted hence optional. -/
structure InsertProduct where
  title : String
  description : String
  price : String
  imageUrl : Option String := none
  status : Option String := none
  deriving Repr, DecidableEq

/-- Parsed payload of `insertProductSchema.partial()`. -/
structure PartialInsertProduct where
  title : Option String := none
  description : Option String := none
  price : Option String := none
  imageUrl : Option String := none
  status : Option String := none
  deriving Repr, DecidableEq

/-- Row of the `messages` table. `is_read` is a nullable boolean with
default `false`; inserts go through `insertMessageSchema` which omits it,
so it is stored as `some false` on creation. -/
structure MessageRow where
  id : Nat
  name : String
  email : String
  subject : String
  message : String
  isRead : Option Bool
  createdAt : Nat
  deriving Repr, DecidableEq

/-- Parsed payload of `insertMessageSchema` (omits `id`, `isRead`,
`createdAt`): the four text fields, all required. -/
structure InsertMessage where
  name : String
  email : String
  subject : String
  message : String
  deriving Repr, DecidableEq

/-- Row of the `message_replies` table. `message_id` is a nullable integer
foreign key into `messages`; `is_from_admin` is a nullable boolean with
default `true`. -/
structure MessageReplyRow where
  id : Nat
  messageId : Option Nat
  reply : String
  isFromAdmin : Option Bool
  createdAt : Nat
  deriving Repr, DecidableEq

/-- Parsed payload of `insertMessageReplySchema` (omits `id`, `createdAt`):
`reply` required, `messageId` and `isFromAdmin` optional. -/
structure InsertMessageReply where
  messageId : Option Nat := none
  reply : String
  isFromAdmin : Option Bool := none
  deriving Repr, DecidableEq

/-- The relational store: one list per table (in insertion order), the
serial-id counter of each table, and the clock supplying `defaultNow()`
values. The unused `users` table is not modelled; no route touches it. -/
structure DB where
  siteConfigs : List SiteConfigRow
  projects : List ProjectRow
  products : List ProductRow
  messages : List MessageRow
  messageReplies : List MessageReplyRow
  nextSiteConfigId : Nat
  nextProjectId : Nat
  nextProductId : Nat
  nextMessageId : Nat
  nextMessageReplyId : Nat
  now : Nat
  deriving Repr, DecidableEq

/-- Semantics of one column inside drizzle's `update().set(obj)`: a key
whose value is `undefined` is dropped from the generated SQL, so the old
column value survives; a present value overwrites it. -/
def setCol {α : Type} (new old : Option α) : Option α :=
  match new with
  | some v => some v
  | none => old

/-! Storage layer: `DatabaseStorage` of `src/server/storage.ts`.
Reads are pure functions of the `DB`; writes return a pair of the
TypeScript return value and the successor `DB`. -/

/-- `getSiteConfig`: `select().from(siteConfig).limit(1)`, destructured to
the first row or `undefined`. -/
def getSiteConfig (db : DB) : Option SiteConfigRow :=
  db.siteConfigs.head?

/-- Row produced by `db.insert(siteConfig).values(config)`: the serial `id`
is assigned by the database, omitted optional columns with a schema
`.default(...)` receive it, the rest store what the payload supplied. -/
def insertSiteConfigValues (c : InsertSiteConfig) (id : Nat) : SiteConfigRow :=
  { id := id
    companyName := c.companyName
    heroTitle := c.heroTitle
    heroDescription := c.heroDescription
    aboutTitle := some (c.aboutTitle.getD "Over Ons")
    aboutDescription := c.aboutDescription
    logoUrl := c.logoUrl
    faviconUrl := c.faviconUrl
    primaryColor := some (c.primaryColor.getD "#2563eb")
    secondaryColor := some (c.secondaryColor.getD "#1e40af")
    accentColor := some (c.accentColor.getD "#059669")
    textColor := some (c.textColor.getD "#1f2937")
    backgroundColor := some (c.backgroundColor.getD "#ffffff")
    fontFamily := some (c.fontFamily.getD "Inter")
    email := c.email
    phone := c.phone
    address := c.address
    facebookUrl := c.facebookUrl
    twitterUrl := c.twitterUrl
    instagramUrl := c.instagramUrl
    linkedinUrl := c.linkedinUrl
    siteTitle := c.siteTitle
    seoDescription := c.seoDescription
    seoKeywords := c.seoKeywords
    metaDescription := c.metaDescription
    metaKeywords := c.metaKeywords }

/-- Effect of `update(siteConfig).set(config)` on one row: `companyName` is
always present in a parsed `InsertSiteConfig` so it is always written;
every optional field is written only when supplied (`setCol`). -/
def applyConfigSet (c : InsertSiteConfig) (r : SiteConfigRow) : SiteConfigRow :=
  { r with
    companyName := c.companyName
    heroTitle := setCol c.heroTitle r.heroTitle
    heroDescription := setCol c.heroDescription r.heroDescription
    aboutTitle := setCol c.aboutTitle r.aboutTitle
    aboutDescription := setCol c.aboutDescription r.aboutDescription
    logoUrl := setCol c.logoUrl r.logoUrl
    faviconUrl := setCol c.faviconUrl r.faviconUrl
    primaryColor := setCol c.primaryColor r.primaryColor
    secondaryColor := setCol c.secondaryColor r.secondaryColor
    accentColor := setCol c.accentColor r.accentColor
    textColor := setCol c.textColor r.textColor
    backgroundColor := setCol c.backgroundColor r.backgroundColor
    fontFamily := setCol c.fontFamily r.fontFamily
    email := setCol c.email r.email
    phone := setCol c.phone r.phone
    address := setCol c.address r.address
    facebookUrl := setCol c.facebookUrl r.facebookUrl
    twitterUrl := setCol c.twitterUrl r.twitterUrl
    instagramUrl := setCol c.instagramUrl r.instagramUrl
    linkedinUrl := setCol c.linkedinUrl r.linkedinUrl
    siteTitle := setCol c.siteTitle r.siteTitle
    seoDescription := setCol c.seoDescription r.seoDescription
    seoKeywords := setCol c.seoKeywords r.seoKeywords
    metaDescription := setCol c.metaDescription r.metaDescription
    metaKeywords := setCol c.metaKeywords r.metaKeywords }

/-- `updateSiteConfig`: read the singleton; if a row exists, update the
rows whose `id` equals the existing row's `id` and return the updated row;
otherwise insert the payload as a fresh row and return it. -/
def updateSiteConfig (c : InsertSiteConfig) (db : DB) : SiteConfigRow × DB :=
  match getSiteConfig db with
  | some existing =>
      (applyConfigSet c existing,
       { db with siteConfigs :=
           db.siteConfigs.map fun r =>
             if r.id = existing.id then applyConfigSet c r else r })
  | none =>
      let created := insertSiteConfigValues c db.nextSiteConfigId
      (created,
       { db with siteConfigs := db.siteConfigs ++ [created]
                 nextSiteConfigId := db.nextSiteConfigId + 1 })

/-- `getProjects`: `select().from(projects).orderBy(projects.createdAt)`. -/
def getProjects (db : DB) : List ProjectRow :=
  db.projects.mergeSort fun a b => decide (a.createdAt ≤ b.createdAt)

/-- `getProject`: first row with the given id, or `undefined`. -/
def getProject (id : Nat) (db : DB) : Option ProjectRow :=
  db.projects.find? fun r => r.id = id

/-- Row produced by `db.insert(projects).values(project)`: serial id, the
`status` column default `concept` when not supplied, `createdAt` from
`defaultNow()`. -/
def insertProjectValues (p : InsertProject) (id now : Nat) : ProjectRow :=
  { id := id
    title := p.title
    description := p.description
    category := p.category
    status := p.status.getD "concept"
    imageUrl := p.imageUrl
    createdAt := now }

/-- `createProject`: insert and return the created row; the clock advances
past the insert. -/
def createProject (p : InsertProject) (db : DB) : ProjectRow × DB :=
  let created := insertProjectValues p db.nextProjectId db.now
  (created,
   { db with projects := db.projects ++ [created]
             nextProjectId := db.nextProjectId + 1
             now := db.now + 1 })

/-- Effect of `update(projects).set(project)` with a `Partial` payload on
one row: only supplied fields are written (`id` and `createdAt` are not
part of the payload type at all). -/
def applyProjectSet (p : PartialInsertProject) (r : ProjectRow) : ProjectRow :=
  { r with
    title := p.title.getD r.title
    description := p.description.getD r.description
    category := p.category.getD r.category
    status := p.status.getD r.status
    imageUrl := setCol p.imageUrl r.imageUrl }

/-- `updateProject`: update the rows whose `id` matches; `.returning()`
destructured to the first updated row, `undefined` when none matched. -/
def updateProject (id : Nat) (p : PartialInsertProject) (db : DB) :
    Option ProjectRow × DB :=
  ((db.projects.find? fun r => r.id = id).map (applyProjectSet p),
   { db with projects :=
       db.projects.map fun r => if r.id = id then applyProjectSet p r else r })

/-- `deleteProject`: delete the rows whose `id` matches, reporting
`rowCount > 0`. -/
def deleteProject (id : Nat) (db : DB) : Bool × DB :=
  (db.projects.any fun r => r.id = id,
   { db with projects := db.projects.filter fun r => ¬ r.id = id })

/-- `getProducts`: ordered by `createdAt` ascending. -/
def getProducts (db : DB) : List ProductRow :=
  db.products.mergeSort fun a b => decide (a.createdAt ≤ b.createdAt)

/-- `getProduct`: first row with the given id, or `undefined`. -/
def getProduct (id : Nat) (db : DB) : Option ProductRow :=
  db.products.find? fun r => r.id = id

/-- Row produced by `db.insert(products).values(product)`: serial id, the
`status` column default `active` when not supplied, `createdAt` from
`defaultNow()`. -/
def insertProductValues (p : InsertProduct) (id now : Nat) : ProductRow :=
  { id := id
    title := p.title
    description := p.description
    price := p.price
    imageUrl := p.imageUrl
    status := p.status.getD "active"
    createdAt := now }

/-- `createProduct`: insert and return the created row. -/
def createProduct (p : InsertProduct) (db : DB) : ProductRow × DB :=
  let created := insertProductValues p db.nextProductId db.now
  (created,
   { db with products := db.products ++ [created]
             nextProductId := db.nextProductId + 1
             now := db.now + 1 })

/-- Effect of `update(products).set(product)` with a `Partial` payload. -/
def applyProductSet (p : PartialInsertProduct) (r : ProductRow) : ProductRow :=
  { r with
    title := p.title.getD r.title
    description := p.description.getD r.description
    price := p.price.getD r.price
    imageUrl := setCol p.imageUrl r.imageUrl
    status := p.status.getD r.status }

/-- `updateProduct`: update the rows whose `id` matches. -/
def updateProduct (id : Nat) (p : PartialInsertProduct) (db : DB) :
    Option ProductRow × DB :=
  ((db.products.find? fun r => r.id = id).map (applyProductSet p),
   { db with products :=
       db.products.map fun r => if r.id = id then applyProductSet p r else r })

/-- `deleteProduct`: delete the rows whose `id` matches. -/
def deleteProduct (id : Nat) (db : DB) : Bool × DB :=
  (db.products.any fun r => r.id = id,
   { db with products := db.products.filter fun r => ¬ r.id = id })

/-- `getMessages`: ordered by `createdAt` ascending. -/
def getMessages (db : DB) : List MessageRow :=
  db.messages.mergeSort fun a b => decide (a.createdAt ≤ b.createdAt)

/-- `getMessage`: first row with the given id, or `undefined`. -/
def getMessage (id : Nat) (db : DB) : Option MessageRow :=
  db.messages.find? fun r => r.id = id

/-- `createMessage`: insert with `isRead` from its column default `false`
and `createdAt` from `defaultNow()`, returning the created row. -/
def createMessage (m : InsertMessage) (db : DB) : MessageRow × DB :=
  let created : MessageRow :=
    { id := db.nextMessageId
      name := m.name
      email := m.email
      subject := m.subject
      message := m.message
      isRead := some false
      createdAt := db.now }
  (created,
   { db with messages := db.messages ++ [created]
             nextMessageId := db.nextMessageId + 1
             now := db.now + 1 })

/-- `markMessageAsRead`: `update(messages).set({isRead: true}).where(eq(id))`,
reporting `rowCount > 0` (the number of rows the `where` matched, whether or
not `isRead` already was `true`). -/
def markMessageAsRead (id : Nat) (db : DB) : Bool × DB :=
  (db.messages.any fun r => r.id = id,
   { db with messages :=
       db.messages.map fun r =>
         if r.id = id then { r with isRead := some true } else r })

/-- `getMessageReplies`: rows whose `messageId` equals the argument,
ordered by `createdAt` ascending (an SQL `eq` against NULL never holds, so
rows with a NULL `messageId` are never returned). -/
def getMessageReplies (messageId : Nat) (db : DB) : List MessageReplyRow :=
  (db.messageReplies.filter fun r => r.messageId = some messageId).mergeSort
    fun a b => decide (a.createdAt ≤ b.createdAt)

/-- `createMessageReply`: insert with `isFromAdmin` defaulting to `true`
when not supplied and `createdAt` from `defaultNow()`. -/
def createMessageReply (r : InsertMessageReply) (db : DB) :
    MessageReplyRow × DB :=
  let created : MessageReplyRow :=
    { id := db.nextMessageReplyId
      messageId := r.messageId
      reply := r.reply
      isFromAdmin := some (r.isFromAdmin.getD true)
      createdAt := db.now }
  (created,
   { db with messageReplies := db.messageReplies ++ [created]
             nextMessageReplyId := db.nextMessageReplyId + 1
             now := db.now + 1 })

/-- Default configuration inserted by `initializeDefaults` when no
`site_config` row exists at construction time (the social URLs are passed
as `undefined`, i.e. not supplied). -/
def defaultSiteConfig : InsertSiteConfig :=
  { companyName := "Voorbeeld Bedrijf BV"
    heroTitle := some "Welkom bij Voorbeeld Bedrijf BV"
    heroDescription := some "Wij leveren professionele diensten en hoogwaardige producten die uw verwachtingen overtreffen."
    aboutTitle := some "Over Ons"
    aboutDescription := some "Met meer dan 10 jaar ervaring in de branche, zijn wij uw betrouwbare partner voor innovatieve oplossingen. Ons toegewijde team van experts werkt samen om uw visie werkelijkheid te maken en uw bedrijfsdoelen te overtreffen."
    primaryColor := some "#2563eb"
    email := some "info@voorbeeldbedrijf.nl"
    phone := some "+31 20 123 4567"
    address := some "Hoofdstraat 123, 1234 AB Amsterdam"
    facebookUrl := none
    instagramUrl := none
    linkedinUrl := none
    metaDescription := some "Voorbeeld Bedrijf BV - Professionele diensten en hoogwaardige producten. Meer dan 10 jaar ervaring in innovatieve oplossingen."
    metaKeywords := some "professionele diensten, hoogwaardige producten, innovatieve oplossingen, betrouwbare partner" }

/-- Demo projects seeded by `initializeDefaults` when the `projects` table
is empty. -/
def demoProjects : List InsertProject :=
  [ { title := "Modern Kantoorgebouw Amsterdam"
      description := "Ontwerp en realisatie van een modern kantoorgebouw met duurzame materialen en energy-efficient systemen."
      category := "architectuur"
      status := some "completed"
      imageUrl := some "https://images.unsplash.com/photo-1486406146926-c627a92ad1ab?w=800&h=600&fit=crop" },
    { title := "Luxe Woonhuis Interieur"
      description := "Complete interieurinrichting van een luxe woonhuis met moderne elementen en klassieke accenten."
      category := "interieur"
      status := some "completed"
      imageUrl := some "https://images.unsplash.com/photo-1586023492125-27b2c045efd7?w=800&h=600&fit=crop" },
    { title := "E-commerce Platform"
      description := "Ontwikkeling van een volledig responsive e-commerce platform met moderne technologieën."
      category := "web"
      status := some "progress"
      imageUrl := some "https://images.unsplash.com/photo-1460925895917-afdab827c52f?w=800&h=600&fit=crop" } ]

/-- Demo products seeded by `initializeDefaults` when the `products` table
is empty. -/
def demoProducts : List InsertProduct :=
  [ { title := "Premium Consultancy Pakket"
      description := "Uitgebreide consultancy diensten voor uw project van start tot finish."
      price := "€2.500"
      status := some "active"
      imageUrl := some "https://images.unsplash.com/photo-1552664730-d307ca884978?w=800&h=600&fit=crop" },
    { title := "Design Workshop"
      description := "Interactieve workshop over modern design principes en trends."
      price := "€450"
      status := some "active"
      imageUrl := some "https://images.unsplash.com/photo-1542744173-8e7e53415bb0?w=800&h=600&fit=crop" },
    { title := "Digitale Strategie Audit"
      description := "Complete audit van uw huidige digitale strategie met concrete verbetervoorstellen."
      price := "€1.200"
      status := some "active"
      imageUrl := some "https://images.unsplash.com/photo-1551288049-bebda4e38f71?w=800&h=600&fit=crop" } ]

/-- First statement of `initializeDefaults`: when `getSiteConfig` finds no
row, upsert the hardcoded default configuration. -/
def seedConfig (db : DB) : DB :=
  match getSiteConfig db with
  | some _ => db
  | none => (updateSiteConfig defaultSiteConfig db).2

/-- Second statement of `initializeDefaults`: when `getProjects` returns no
rows, create each demo project in order. -/
def seedProjects (db : DB) : DB :=
  if (getProjects db).length = 0 then
    demoProjects.foldl (fun d p => (createProject p d).2) db
  else db

/-- Third statement of `initializeDefaults`: when `getProducts` returns no
rows, create each demo product in order. -/
def seedProducts (db : DB) : DB :=
  if (getProducts db).length = 0 then
    demoProducts.foldl (fun d p => (createProduct p d).2) db
  else db

/-- `initializeDefaults`, run once from the `DatabaseStorage` constructor
at process start: seed the default config, then the demo projects, then
the demo products. -/
def initializeDefaults (db : DB) : DB :=
  seedProducts (seedProjects (seedConfig db))

/-! Route layer: `registerRoutes` of `src/routes.ts`. A handler takes the
already-parsed path parameter (a `Nat` id), a request body as received
(fields it may or may not carry), for multipart routes the optional
uploaded file, and the current `DB`; it yields an HTTP status, the JSON
payload when one is sent, and the successor `DB`. Bodies are modelled at
the zod boundary: a body structure records which fields the client
supplied, and a `parse...` function mirrors the zod schema, returning
`none` exactly when `.parse` would throw (missing required field). -/

/-- Outcome of one HTTP request: status code, optional JSON payload, and
the store afterwards. -/
structure Resp (α : Type) where
  status : Nat
  payload : Option α
  db : DB
  deriving Repr

/-- Uploaded multipart file as multer sees it: declared content type,
size in bytes, and the generated on-disk filename. -/
structure UploadedFile where
  mimetype : String
  size : Nat
  filename : String
  deriving Repr, DecidableEq

/-- `String.startsWith`, computed over the character lists of the strings
(the builtin works on byte positions, which the kernel does not reduce). -/
def strStartsWith (s pre : String) : Bool :=
  pre.data.isPrefixOf s.data

/-- Multer `fileFilter`: accept `mimetype.startsWith('image/')` only. -/
def fileFilterAccepts (f : UploadedFile) : Bool :=
  strStartsWith f.mimetype "image/"

/-- Multer `limits.fileSize`: 5 MB. -/
def uploadFileSizeLimit : Nat := 5 * 1024 * 1024

/-- A file passes the multer middleware when the filter accepts it and it
does not exceed the size limit. -/
def multerAccepts (f : UploadedFile) : Bool :=
  fileFilterAccepts f && decide (f.size ≤ uploadFileSizeLimit)

/-- Modelled from the spec: the express error middleware that turns a
multer rejection (non-image type, or file over the size limit) into an
HTTP response lives outside the given source files (`src/routes.ts` only
installs `upload.single` before each handler). The spec fixes the
resulting status: such an upload "yields 400" / "is rejected with 400
before any row is created". -/
def multerRejectStatus : Nat := 400

/-- `GET /api/config`: `res.json(config)` with whatever `getSiteConfig`
returned (also when it is `undefined`); no row is written. -/
def getConfigRoute (db : DB) : Resp SiteConfigRow :=
  { status := 200, payload := getSiteConfig db, db := db }

/-- Request body of `PUT /api/config` before validation: each field of the
insert schema, each possibly absent. -/
structure ConfigBody where
  companyName : Option String := none
  heroTitle : Option String := none
  heroDescription : Option String := none
  aboutTitle : Option String := none
  aboutDescription : Option String := none
  logoUrl : Option String := none
  faviconUrl : Option String := none
  primaryColor : Option String := none
  secondaryColor : Option String := none
  accentColor : Option String := none
  textColor : Option String := none
  backgroundColor : Option String := none
  fontFamily : Option String := none
  email : Option String := none
  phone : Option String := none
  address : Option String := none
  facebookUrl : Option String := none
  twitterUrl : Option String := none
  instagramUrl : Option String := none
  linkedinUrl : Option String := none
  siteTitle : Option String := none
  seoDescription : Option String := none
  seoKeywords : Option String := none
  metaDescription : Option String := none
  metaKeywords : Option String := none
  deriving Repr, DecidableEq

/-- `insertSiteConfigSchema.parse`: fails exactly when `companyName` is
missing (the lone required field); every other field passes through as
supplied. -/
def parseSiteConfigBody (b : ConfigBody) : Option InsertSiteConfig :=
  match b.companyName with
  | none => none
  | some n =>
      some
        { companyName := n
          heroTitle := b.heroTitle
          heroDescription := b.heroDescription
          aboutTitle := b.aboutTitle
          aboutDescription := b.aboutDescription
          logoUrl := b.logoUrl
          faviconUrl := b.faviconUrl
          primaryColor := b.primaryColor
          secondaryColor := b.secondaryColor
          accentColor := b.accentColor
          textColor := b.textColor
          backgroundColor := b.backgroundColor
          fontFamily := b.fontFamily
          email := b.email
          phone := b.phone
          address := b.address
          facebookUrl := b.facebookUrl
          twitterUrl := b.twitterUrl
          instagramUrl := b.instagramUrl
          linkedinUrl := b.linkedinUrl
          siteTitle := b.siteTitle
          seoDescription := b.seoDescription
          seoKeywords := b.seoKeywords
          metaDescription := b.metaDescription
          metaKeywords := b.metaKeywords }

/-- `PUT /api/config`: validate the body (`400` when `.parse` throws),
then upsert via `updateSiteConfig` and answer `200` with the row. -/
def putConfigRoute (b : ConfigBody) (db : DB) : Resp SiteConfigRow :=
  match parseSiteConfigBody b with
  | none => { status := 400, payload := none, db := db }
  | some c =>
      { status := 200
        payload := some (updateSiteConfig c db).1
        db := (updateSiteConfig c db).2 }

/-- `GET /api/projects`: `200` with the ordered list. -/
def getProjectsRoute (db : DB) : Resp (List ProjectRow) :=
  { status := 200, payload := some (getProjects db), db := db }

/-- `GET /api/projects/:id`: `404` when `getProject` yields `undefined`,
else `200` with the row. -/
def getProjectRoute (id : Nat) (db : DB) : Resp ProjectRow :=
  match getProject id db with
  | none => { status := 404, payload := none, db := db }
  | some p => { status := 200, payload := some p, db := db }

/-- `POST /api/projects`: `upload.single` runs first (a rejected file never
reaches the handler and leaves the store untouched); then the body is
validated (`400` on failure), `imageUrl` is overwritten with
`/uploads/<filename>` when a file arrived, and `createProject` answers
`200` with the created row. -/
def postProjectRoute (body : Option InsertProject) (file : Option UploadedFile)
    (db : DB) : Resp ProjectRow :=
  match file with
  | some f =>
      if multerAccepts f then
        match body with
        | none => { status := 400, payload := none, db := db }
        | some p =>
            let p' := { p with imageUrl := some ("/uploads/" ++ f.filename) }
            let (row, db') := createProject p' db
            { status := 200, payload := some row, db := db' }
      else { status := multerRejectStatus, payload := none, db := db }
  | none =>
      match body with
      | none => { status := 400, payload := none, db := db }
      | some p =>
          let (row, db') := createProject p db
          { status := 200, payload := some row, db := db' }

/-- `PUT /api/projects/:id`: multer first, then `insertProjectSchema
.partial().parse` (`400` on failure), `imageUrl` overridden when a file
arrived, then `updateProject`; `404` when it yields `undefined`. -/
def updateProjectRoute (id : Nat) (body : Option PartialInsertProject)
    (file : Option UploadedFile) (db : DB) : Resp ProjectRow :=
  match file with
  | some f =>
      if multerAccepts f then
        match body with
        | none => { status := 400, payload := none, db := db }
        | some p =>
            let p' := { p with imageUrl := some ("/uploads/" ++ f.filename) }
            let (row?, db') := updateProject id p' db
            match row? with
            | none => { status := 404, payload := none, db := db' }
            | some row => { status := 200, payload := some row, db := db' }
      else { status := multerRejectStatus, payload := none, db := db }
  | none =>
      match body with
      | none => { status := 400, payload := none, db := db }
      | some p =>
          let (row?, db') := updateProject id p db
          match row? with
          | none => { status := 404, payload := none, db := db' }
          | some row => { status := 200, payload := some row, db := db' }

/-- `DELETE /api/projects/:id`: `404` when `deleteProject` reports no row
matched, else `200`. -/
def deleteProjectRoute (id : Nat) (db : DB) : Resp ProjectRow :=
  let (deleted, db') := deleteProject id db
  if deleted then { status := 200, payload := none, db := db' }
  else { status := 404, payload := none, db := db' }

/-- `GET /api/products`: `200` with the ordered list. -/
def getProductsRoute (db : DB) : Resp (List ProductRow) :=
  { status := 200, payload := some (getProducts db), db := db }

/-- `GET /api/products/:id`: `404` when absent, else `200`. -/
def getProductRoute (id : Nat) (db : DB) : Resp ProductRow :=
  match getProduct id db with
  | none => { status := 404, payload := none, db := db }
  | some p => { status := 200, payload := some p, db := db }

/-- `POST /api/products`: same pipeline as `POST /api/projects`. -/
def postProductRoute (body : Option InsertProduct) (file : Option UploadedFile)
    (db : DB) : Resp ProductRow :=
  match file with
  | some f =>
      if multerAccepts f then
        match body with
        | none => { status := 400, payload := none, db := db }
        | some p =>
            let p' := { p with imageUrl := some ("/uploads/" ++ f.filename) }
            let (row, db') := createProduct p' db
            { status := 200, payload := some row, db := db' }
      else { status := multerRejectStatus, payload := none, db := db }
  | none =>
      match body with
      | none => { status := 400, payload := none, db := db }
      | some p =>
          let (row, db') := createProduct p db
          { status := 200, payload := some row, db := db' }

/-- `PUT /api/products/:id`: same pipeline as `PUT /api/projects/:id`. -/
def updateProductRoute (id : Nat) (body : Option PartialInsertProduct)
    (file : Option UploadedFile) (db : DB) : Resp ProductRow :=
  match file with
  | some f =>
      if multerAccepts f then
        match body with
        | none => { status := 400, payload := none, db := db }
        | some p =>
            let p' := { p with imageUrl := some ("/uploads/" ++ f.filename) }
            let (row?, db') := updateProduct id p' db
            match row? with
            | none => { status := 404, payload := none, db := db' }
            | some row => { status := 200, payload := some row, db := db' }
      else { status := multerRejectStatus, payload := none, db := db }
  | none =>
      match body with
      | none => { status := 400, payload := none, db := db }
      | some p =>
          let (row?, db') := updateProduct id p db
          match row? with
          | none => { status := 404, payload := none, db := db' }
          | some row => { status := 200, payload := some row, db := db' }

/-- `DELETE /api/products/:id`: `404` when no row matched, else `200`. -/
def deleteProductRoute (id : Nat) (db : DB) : Resp ProductRow :=
  let (deleted, db') := deleteProduct id db
  if deleted then { status := 200, payload := none, db := db' }
  else { status := 404, payload := none, db := db' }

/-- `GET /api/messages`: `200` with the ordered list. -/
def getMessagesRoute (db : DB) : Resp (List MessageRow) :=
  { status := 200, payload := some (getMessages db), db := db }

/-- `GET /api/messages/:id`: `404` when absent, else `200`. -/
def getMessageRoute (id : Nat) (db : DB) : Resp MessageRow :=
  match getMessage id db with
  | none => { status := 404, payload := none, db := db }
  | some m => { status := 200, payload := some m, db := db }

/-- `POST /api/messages`: validate (`400` on failure), then `createMessage`
and `200` with the created row. -/
def postMessageRoute (body : Option InsertMessage) (db : DB) : Resp MessageRow :=
  match body with
  | none => { status := 400, payload := none, db := db }
  | some m =>
      let (row, db') := createMessage m db
      { status := 200, payload := some row, db := db' }

/-- `PUT /api/messages/:id/read`: `404` when `markMessageAsRead` reports no
matching row, else `200`. -/
def markMessageReadRoute (id : Nat) (db : DB) : Resp MessageRow :=
  let (marked, db') := markMessageAsRead id db
  if marked then { status := 200, payload := none, db := db' }
  else { status := 404, payload := none, db := db' }

/-- `GET /api/messages/:id/replies`: always `200` with the filtered list;
the handler never checks whether the parent message exists. -/
def getMessageRepliesRoute (id : Nat) (db : DB) : Resp (List MessageReplyRow) :=
  { status := 200, payload := some (getMessageReplies id db), db := db }

/-- Request body of `POST /api/messages/:id/replies` before validation. -/
structure ReplyBody where
  messageId : Option Nat := none
  reply : Option String := none
  isFromAdmin : Option Bool := none
  deriving Repr, DecidableEq

/-- `insertMessageReplySchema.parse({...req.body, messageId})`: the spread
puts the path parameter after the body fields, so it overwrites any
`messageId` the body carried; the parse fails exactly when the required
`reply` field is missing. -/
def parseReplyBody (b : ReplyBody) (messageId : Nat) : Option InsertMessageReply :=
  match b.reply with
  | none => none
  | some rep =>
      some { messageId := some messageId, reply := rep, isFromAdmin := b.isFromAdmin }

/-- `POST /api/messages/:id/replies`: validate the body merged with the
path parameter (`400` on failure), then `createMessageReply` and `200`. -/
def postMessageReplyRoute (id : Nat) (b : ReplyBody) (db : DB) :
    Resp MessageReplyRow :=
  match parseReplyBody b id with
  | none => { status := 400, payload := none, db := db }
  | some r =>
      let (row, db') := createMessageReply r db
      { status := 200, payload := some row, db := db' }

/-! Spec-side vocabulary and concrete stores used to state and witness the
claims. -/

/-- An optional payload field is honoured by a stored column: whenever the
payload supplied a value, the column holds it. -/
def OptSupplied {α : Type} (c r : Option α) : Prop :=
  ∀ v, c = some v → r = some v

/-- A `SiteConfigRow` holds the payload's values for every field the
payload supplied (`companyName` is always supplied, the rest only when
`some`). -/
def ConfigSupplied (c : InsertSiteConfig) (r : SiteConfigRow) : Prop :=
  r.companyName = c.companyName ∧
  OptSupplied c.heroTitle r.heroTitle ∧
  OptSupplied c.heroDescription r.heroDescription ∧
  OptSupplied c.aboutTitle r.aboutTitle ∧
  OptSupplied c.aboutDescription r.aboutDescription ∧
  OptSupplied c.logoUrl r.logoUrl ∧
  OptSupplied c.faviconUrl r.faviconUrl ∧
  OptSupplied c.primaryColor r.primaryColor ∧
  OptSupplied c.secondaryColor r.secondaryColor ∧
  OptSupplied c.accentColor r.accentColor ∧
  OptSupplied c.textColor r.textColor ∧
  OptSupplied c.backgroundColor r.backgroundColor ∧
  OptSupplied c.fontFamily r.fontFamily ∧
  OptSupplied c.email r.email ∧
  OptSupplied c.phone r.phone ∧
  OptSupplied c.address r.address ∧
  OptSupplied c.facebookUrl r.facebookUrl ∧
  OptSupplied c.twitterUrl r.twitterUrl ∧
  OptSupplied c.instagramUrl r.instagramUrl ∧
  OptSupplied c.linkedinUrl r.linkedinUrl ∧
  OptSupplied c.siteTitle r.siteTitle ∧
  OptSupplied c.seoDescription r.seoDescription ∧
  OptSupplied c.seoKeywords r.seoKeywords ∧
  OptSupplied c.metaDescription r.metaDescription ∧
  OptSupplied c.metaKeywords r.metaKeywords

/-- The store as the database migration leaves it: every table empty,
every serial sequence at 1. -/
def emptyDB : DB :=
  { siteConfigs := []
    projects := []
    products := []
    messages := []
    messageReplies := []
    nextSiteConfigId := 1
    nextProjectId := 1
    nextProductId := 1
    nextMessageId := 1
    nextMessageReplyId := 1
    now := 0 }

/-- A concrete stored project row. -/
def sampleProject : ProjectRow :=
  { id := 1, title := "Modern Kantoorgebouw Amsterdam"
    description := "Ontwerp en realisatie"
    category := "architectuur", status := "concept"
    imageUrl := none, createdAt := 3 }

/-- A concrete stored product row. -/
def sampleProduct : ProductRow :=
  { id := 1, title := "Design Workshop"
    description := "Interactieve workshop"
    price := "€450", imageUrl := none, status := "active", createdAt := 4 }

/-- A concrete stored message row, already marked read. -/
def sampleMessage : MessageRow :=
  { id := 1, name := "Jan", email := "jan@x.nl", subject := "Vraag"
    message := "Hallo", isRead := some true, createdAt := 5 }

/-- A concrete stored reply row belonging to message 1. -/
def sampleReply : MessageReplyRow :=
  { id := 1, messageId := some 1, reply := "Bedankt"
    isFromAdmin := some true, createdAt := 6 }

/-- A store holding one project, one product, one message and one reply to
that message. -/
def sampleDB : DB :=
  { emptyDB with
    projects := [sampleProject]
    products := [sampleProduct]
    messages := [sampleMessage]
    messageReplies := [sampleReply]
    nextProjectId := 2
    nextProductId := 2
    nextMessageId := 2
    nextMessageReplyId := 2
    now := 7 }

/-- A store that already holds its configuration row (the seeded default). -/
def dbWithConfig : DB :=
  { emptyDB with
    siteConfigs := [insertSiteConfigValues defaultSiteConfig 1]
    nextSiteConfigId := 2 }

/-- A `PUT /api/config` body that omits `companyName` but supplies another
field. -/
def configBodyNoName : ConfigBody :=
  { heroTitle := some "Nieuwe titel" }

/-- A reply body that itself carries a `messageId` different from the path
parameter it will be posted under. -/
def replyBodyWithForeignId : ReplyBody :=
  { messageId := some 999, reply := some "Bedankt", isFromAdmin := none }

/-- The reply row `POST /api/messages/1/replies` creates from
`replyBodyWithForeignId` against the empty store. -/
def replyRowFromPath : MessageReplyRow :=
  { id := 1, messageId := some 1, reply := "Bedankt"
    isFromAdmin := some true, createdAt := 0 }

/-- A non-image upload: plain text content type. -/
def textUpload : UploadedFile :=
  { mimetype := "text/plain", size := 10, filename := "f.txt" }

/-- A second configuration payload, supplying a new company name and a
phone number and nothing else. -/
def configPayloadB : InsertSiteConfig :=
  { companyName := "Nieuw Bedrijf BV", phone := some "+31 10 000 0000" }

/-! Theorems. -/

theorem optSupplied_setCol {α : Type} (c r : Option α) :
    OptSupplied c (setCol c r) := by
  intro v hv
  simp [setCol, hv]

theorem configSupplied_applyConfigSet (c : InsertSiteConfig) (r : SiteConfigRow) :
    ConfigSupplied c (applyConfigSet c r) :=
  ⟨rfl, optSupplied_setCol _ _, optSupplied_setCol _ _, optSupplied_setCol _ _,
    optSupplied_setCol _ _, optSupplied_setCol _ _, optSupplied_setCol _ _,
    optSupplied_setCol _ _, optSupplied_setCol _ _, optSupplied_setCol _ _,
    optSupplied_setCol _ _, optSupplied_setCol _ _, optSupplied_setCol _ _,
    optSupplied_setCol _ _, optSupplied_setCol _ _, optSupplied_setCol _ _,
    optSupplied_setCol _ _, optSupplied_setCol _ _, optSupplied_setCol _ _,
    optSupplied_setCol _ _, optSupplied_setCol _ _, optSupplied_setCol _ _,
    optSupplied_setCol _ _, optSupplied_setCol _ _, optSupplied_setCol _ _⟩

theorem updateSiteConfig_siteConfigs_of_nil (c : InsertSiteConfig) (db : DB)
    (h : db.siteConfigs = []) :
    (updateSiteConfig c db).2.siteConfigs
      = [insertSiteConfigValues c db.nextSiteConfigId] := by
  unfold updateSiteConfig getSiteConfig
  rw [h]
  simp

theorem updateSiteConfig_siteConfigs_of_one (c : InsertSiteConfig) (db : DB)
    (x : SiteConfigRow) (h : db.siteConfigs = [x]) :
    (updateSiteConfig c db).2.siteConfigs = [applyConfigSet c x] := by
  unfold updateSiteConfig getSiteConfig
  rw [h]
  simp

/-- C1: the SiteConfig store holds at most one row and `updateSiteConfig`
(`PUT /api/config`) preserves this: starting from a store with at most one
configuration row, one call leaves exactly one row (inserting when none
existed), a second call with payload `b` still leaves exactly one row, and
that row holds `b`'s values for every field `b` supplied. -/
theorem siteConfig_upsert_singleton (a b : InsertSiteConfig) (db : DB)
    (h : db.siteConfigs.length ≤ 1) :
    (updateSiteConfig a db).2.siteConfigs.length = 1 ∧
    (updateSiteConfig b (updateSiteConfig a db).2).2.siteConfigs.length = 1 ∧
    ∀ r ∈ (updateSiteConfig b (updateSiteConfig a db).2).2.siteConfigs,
      ConfigSupplied b r := by
  rcases hcs : db.siteConfigs with _ | ⟨x, _ | ⟨y, t⟩⟩
  · have h1 := updateSiteConfig_siteConfigs_of_nil a db hcs
    have h2 := updateSiteConfig_siteConfigs_of_one b (updateSiteConfig a db).2 _ h1
    refine ⟨by simp [h1], by simp [h2], ?_⟩
    intro r hr
    rw [h2] at hr
    simp only [List.mem_singleton] at hr
    subst hr
    exact configSupplied_applyConfigSet b _
  · have h1 := updateSiteConfig_siteConfigs_of_one a db x hcs
    have h2 := updateSiteConfig_siteConfigs_of_one b (updateSiteConfig a db).2 _ h1
    refine ⟨by simp [h1], by simp [h2], ?_⟩
    intro r hr
    rw [h2] at hr
    simp only [List.mem_singleton] at hr
    subst hr
    exact configSupplied_applyConfigSet b _
  · rw [hcs] at h
    simp at h

theorem siteConfig_upsert_singleton_witness :
    emptyDB.siteConfigs.length ≤ 1 ∧
    ((updateSiteConfig defaultSiteConfig emptyDB).2.siteConfigs.length = 1 ∧
     (updateSiteConfig configPayloadB
        (updateSiteConfig defaultSiteConfig emptyDB).2).2.siteConfigs.length = 1 ∧
     ∀ r ∈ (updateSiteConfig configPayloadB
        (updateSiteConfig defaultSiteConfig emptyDB).2).2.siteConfigs,
       ConfigSupplied configPayloadB r) :=
  ⟨by simp [emptyDB],
   siteConfig_upsert_singleton defaultSiteConfig configPayloadB emptyDB
     (by simp [emptyDB])⟩

/-- C2: when an identifier matches no stored row, the by-id routes answer
404: `GET/PUT/DELETE /api/projects/:id`, `GET/PUT/DELETE
/api/products/:id`, `GET /api/messages/:id` and `PUT
/api/messages/:id/read` (the update routes shown with a parsed body and no
uploaded file). -/
theorem byId_routes_404 (id : Nat) (db : DB)
    (hp : ∀ r ∈ db.projects, r.id ≠ id)
    (hq : ∀ r ∈ db.products, r.id ≠ id)
    (hm : ∀ r ∈ db.messages, r.id ≠ id)
    (bodyP : PartialInsertProject) (bodyQ : PartialInsertProduct) :
    (getProjectRoute id db).status = 404 ∧
    (updateProjectRoute id (some bodyP) none db).status = 404 ∧
    (deleteProjectRoute id db).status = 404 ∧
    (getProductRoute id db).status = 404 ∧
    (updateProductRoute id (some bodyQ) none db).status = 404 ∧
    (deleteProductRoute id db).status = 404 ∧
    (getMessageRoute id db).status = 404 ∧
    (markMessageReadRoute id db).status = 404 := by
  have hfp : db.projects.find? (fun r => decide (r.id = id)) = none := by
    rw [List.find?_eq_none]
    intro x hx
    simp [hp x hx]
  have hfq : db.products.find? (fun r => decide (r.id = id)) = none := by
    rw [List.find?_eq_none]
    intro x hx
    simp [hq x hx]
  have hfm : db.messages.find? (fun r => decide (r.id = id)) = none := by
    rw [List.find?_eq_none]
    intro x hx
    simp [hm x hx]
  have hap : db.projects.any (fun r => decide (r.id = id)) = false := by
    rw [List.any_eq_false]
    intro x hx
    simp [hp x hx]
  have haq : db.products.any (fun r => decide (r.id = id)) = false := by
    rw [List.any_eq_false]
    intro x hx
    simp [hq x hx]
  have ham : db.messages.any (fun r => decide (r.id = id)) = false := by
    rw [List.any_eq_false]
    intro x hx
    simp [hm x hx]
  refine ⟨?_, ?_, ?_, ?_, ?_, ?_, ?_, ?_⟩ <;>
    simp [getProjectRoute, getProject, updateProjectRoute, updateProject,
      deleteProjectRoute, deleteProject, getProductRoute, getProduct,
      updateProductRoute, updateProduct, deleteProductRoute, deleteProduct,
      getMessageRoute, getMessage, markMessageReadRoute, markMessageAsRead,
      hfp, hfq, hfm, hap, haq, ham]

theorem byId_routes_404_witness :
    (getProjectRoute 1 emptyDB).status = 404 ∧
    (updateProjectRoute 1 (some {}) none emptyDB).status = 404 ∧
    (deleteProjectRoute 1 emptyDB).status = 404 ∧
    (getProductRoute 1 emptyDB).status = 404 ∧
    (updateProductRoute 1 (some {}) none emptyDB).status = 404 ∧
    (deleteProductRoute 1 emptyDB).status = 404 ∧
    (getMessageRoute 1 emptyDB).status = 404 ∧
    (markMessageReadRoute 1 emptyDB).status = 404 :=
  byId_routes_404 1 emptyDB (by simp [emptyDB]) (by simp [emptyDB])
    (by simp [emptyDB]) {} {}

/-- C3: whatever the store holds (hence after every sequence of
insertions, in any order), `GET /api/projects` and `GET /api/products`
answer with exactly the stored rows (a permutation of the table) ordered
by ascending creation timestamp. -/
theorem getAll_sorted_by_createdAt (db : DB) :
    (getProjectsRoute db).payload = some (getProjects db) ∧
    List.Pairwise (fun a b : ProjectRow => a.createdAt ≤ b.createdAt)
      (getProjects db) ∧
    (getProjects db).Perm db.projects ∧
    (getProductsRoute db).payload = some (getProducts db) ∧
    List.Pairwise (fun a b : ProductRow => a.createdAt ≤ b.createdAt)
      (getProducts db) ∧
    (getProducts db).Perm db.products := by
  refine ⟨rfl, ?_, List.mergeSort_perm _ _, rfl, ?_, List.mergeSort_perm _ _⟩
  · have h := @List.sorted_mergeSort ProjectRow
      (fun a b => decide (a.createdAt ≤ b.createdAt))
      (by intro a b c hab hbc; simp at *; omega)
      (by intro a b; simp; omega) db.projects
    unfold getProjects
    simpa using h
  · have h := @List.sorted_mergeSort ProductRow
      (fun a b => decide (a.createdAt ≤ b.createdAt))
      (by intro a b c hab hbc; simp at *; omega)
      (by intro a b; simp; omega) db.products
    unfold getProducts
    simpa using h

/-- C4: a `POST /api/projects` or `POST /api/products` request carrying a
file whose content type is not an image, or a file larger than 5 MB, is
answered with status 400 (the multer rejection status, fixed by the spec)
and creates no row: the whole store, in particular the entity table, is
exactly what it was. -/
theorem upload_rejected_400_no_row (bodyP : Option InsertProject)
    (bodyQ : Option InsertProduct) (f : UploadedFile) (db : DB)
    (h : fileFilterAccepts f = false ∨ uploadFileSizeLimit < f.size) :
    (postProjectRoute bodyP (some f) db).status = 400 ∧
    (postProjectRoute bodyP (some f) db).db.projects = db.projects ∧
    (postProjectRoute bodyP (some f) db).db = db ∧
    (postProductRoute bodyQ (some f) db).status = 400 ∧
    (postProductRoute bodyQ (some f) db).db.products = db.products ∧
    (postProductRoute bodyQ (some f) db).db = db := by
  have hacc : multerAccepts f = false := by
    rcases h with h | h
    · simp [multerAccepts, h]
    · have hsz : decide (f.size ≤ uploadFileSizeLimit) = false := by
        simp
        omega
      simp [multerAccepts, hsz]
  refine ⟨?_, ?_, ?_, ?_, ?_, ?_⟩ <;>
    simp [postProjectRoute, postProductRoute, hacc, multerRejectStatus]

theorem upload_rejected_400_no_row_witness :
    (fileFilterAccepts textUpload = false ∨
      uploadFileSizeLimit < textUpload.size) ∧
    ((postProjectRoute none (some textUpload) emptyDB).status = 400 ∧
     (postProjectRoute none (some textUpload) emptyDB).db.projects
        = emptyDB.projects ∧
     (postProjectRoute none (some textUpload) emptyDB).db = emptyDB ∧
     (postProductRoute none (some textUpload) emptyDB).status = 400 ∧
     (postProductRoute none (some textUpload) emptyDB).db.products
        = emptyDB.products ∧
     (postProductRoute none (some textUpload) emptyDB).db = emptyDB) :=
  ⟨Or.inl rfl,
   upload_rejected_400_no_row none none textUpload emptyDB (Or.inl rfl)⟩

theorem updateProject_projects_id_createdAt (id : Nat)
    (p : PartialInsertProject) (db : DB) :
    (updateProject id p db).2.projects.map (fun r => (r.id, r.createdAt))
      = db.projects.map (fun r => (r.id, r.createdAt)) := by
  simp only [updateProject, List.map_map]
  apply List.map_congr_left
  intro r _
  by_cases h : r.id = id <;> simp [h, applyProjectSet]

theorem updateProduct_products_id_createdAt (id : Nat)
    (p : PartialInsertProduct) (db : DB) :
    (updateProduct id p db).2.products.map (fun r => (r.id, r.createdAt))
      = db.products.map (fun r => (r.id, r.createdAt)) := by
  simp only [updateProduct, List.map_map]
  apply List.map_congr_left
  intro r _
  by_cases h : r.id = id <;> simp [h, applyProductSet]

/-- C5: the entity update operations and the PUT routes invoking them never
change a row's identifier or creation timestamp: the stored tables keep
exactly the same `(id, createdAt)` column values, and the row returned for
an existing identifier keeps the stored row's `id` and `createdAt`,
whatever partial payload (and, for the routes, whatever body and file) the
client supplies. -/
theorem update_preserves_id_createdAt (id : Nat) (pp : PartialInsertProject)
    (pq : PartialInsertProduct) (db : DB) :
    ((updateProject id pp db).2.projects.map (fun r => (r.id, r.createdAt))
        = db.projects.map (fun r => (r.id, r.createdAt))) ∧
    (∀ r r', getProject id db = some r → (updateProject id pp db).1 = some r' →
        r'.id = r.id ∧ r'.createdAt = r.createdAt) ∧
    ((updateProduct id pq db).2.products.map (fun r => (r.id, r.createdAt))
        = db.products.map (fun r => (r.id, r.createdAt))) ∧
    (∀ r r', getProduct id db = some r → (updateProduct id pq db).1 = some r' →
        r'.id = r.id ∧ r'.createdAt = r.createdAt) ∧
    (∀ body file,
      (updateProjectRoute id body file db).db.projects.map
          (fun r => (r.id, r.createdAt))
        = db.projects.map (fun r => (r.id, r.createdAt))) ∧
    (∀ body file,
      (updateProductRoute id body file db).db.products.map
          (fun r => (r.id, r.createdAt))
        = db.products.map (fun r => (r.id, r.createdAt))) := by
  refine ⟨updateProject_projects_id_createdAt id pp db, ?_,
    updateProduct_products_id_createdAt id pq db, ?_, ?_, ?_⟩
  · intro r r' hg hu
    simp only [updateProject, getProject] at hg hu
    rw [hg] at hu
    simp only [Option.map_some', Option.some.injEq] at hu
    subst hu
    simp [applyProjectSet]
  · intro r r' hg hu
    simp only [updateProduct, getProduct] at hg hu
    rw [hg] at hu
    simp only [Option.map_some', Option.some.injEq] at hu
    subst hu
    simp [applyProductSet]
  · intro body file
    rcases file with _ | f
    · rcases body with _ | p
      · simp [updateProjectRoute]
      · rcases he : updateProject id p db with ⟨row?, db'⟩
        have hd : db'.projects.map (fun r => (r.id, r.createdAt))
            = db.projects.map (fun r => (r.id, r.createdAt)) := by
          have h := updateProject_projects_id_createdAt id p db
          rw [he] at h
          exact h
        rcases row? with _ | row <;> simp [updateProjectRoute, he, hd]
    · by_cases hf : multerAccepts f = true
      · rcases body with _ | p
        · simp [updateProjectRoute, hf]
        · rcases he : updateProject id
              { p with imageUrl := some ("/uploads/" ++ f.filename) } db with
            ⟨row?, db'⟩
          have hd : db'.projects.map (fun r => (r.id, r.createdAt))
              = db.projects.map (fun r => (r.id, r.createdAt)) := by
            have h := updateProject_projects_id_createdAt id
              { p with imageUrl := some ("/uploads/" ++ f.filename) } db
            rw [he] at h
            exact h
          rcases row? with _ | row <;> simp [updateProjectRoute, hf, he, hd]
      · simp [updateProjectRoute, hf]
  · intro body file
    rcases file with _ | f
    · rcases body with _ | p
      · simp [updateProductRoute]
      · rcases he : updateProduct id p db with ⟨row?, db'⟩
        have hd : db'.products.map (fun r => (r.id, r.createdAt))
            = db.products.map (fun r => (r.id, r.createdAt)) := by
          have h := updateProduct_products_id_createdAt id p db
          rw [he] at h
          exact h
        rcases row? with _ | row <;> simp [updateProductRoute, he, hd]
    · by_cases hf : multerAccepts f = true
      · rcases body with _ | p
        · simp [updateProductRoute, hf]
        · rcases he : updateProduct id
              { p with imageUrl := some ("/uploads/" ++ f.filename) } db with
            ⟨row?, db'⟩
          have hd : db'.products.map (fun r => (r.id, r.createdAt))
              = db.products.map (fun r => (r.id, r.createdAt)) := by
            have h := updateProduct_products_id_createdAt id
              { p with imageUrl := some ("/uploads/" ++ f.filename) } db
            rw [he] at h
            exact h
          rcases row? with _ | row <;> simp [updateProductRoute, hf, he, hd]
      · simp [updateProductRoute, hf]

theorem update_preserves_id_createdAt_witness :
    (applyProjectSet {} sampleProject).id = sampleProject.id ∧
    (applyProjectSet {} sampleProject).createdAt = sampleProject.createdAt :=
  (update_preserves_id_createdAt 1 {} {} sampleDB).2.1 sampleProject
    (applyProjectSet {} sampleProject) rfl rfl

/-- C6 fails on the code: here is a store that already holds its one
configuration row, yet `PUT /api/config` with a body that omits
`companyName` (supplying another field) is rejected with 400 —
`insertSiteConfigSchema` requires `companyName` on every call, not only on
first creation. -/
theorem putConfig_missing_companyName_counterexample :
    dbWithConfig.siteConfigs.length = 1 ∧
    configBodyNoName.companyName = none ∧
    (putConfigRoute configBodyNoName dbWithConfig).status = 400 :=
  ⟨rfl, rfl, rfl⟩

/-- C6 (amended): `PUT /api/config` accepts a body in which every
SiteConfig field is optional except `companyName`, which is required on
every call — also when a configuration row already exists: a body omitting
it is rejected with 400 and leaves the store unchanged, and a body
supplying it is accepted with 200. -/
theorem putConfig_companyName_always_required (b : ConfigBody) (db : DB) :
    (b.companyName = none →
      (putConfigRoute b db).status = 400 ∧ (putConfigRoute b db).db = db) ∧
    (∀ n, b.companyName = some n → (putConfigRoute b db).status = 200) := by
  constructor
  · intro h
    simp [putConfigRoute, parseSiteConfigBody, h]
  · intro n h
    simp [putConfigRoute, parseSiteConfigBody, h]

theorem putConfig_companyName_always_required_witness :
    ((putConfigRoute configBodyNoName dbWithConfig).status = 400 ∧
     (putConfigRoute configBodyNoName dbWithConfig).db = dbWithConfig) ∧
    (putConfigRoute { companyName := some "Nieuw Bedrijf BV" }
        dbWithConfig).status = 200 :=
  ⟨(putConfig_companyName_always_required configBodyNoName dbWithConfig).1 rfl,
   (putConfig_companyName_always_required
      { companyName := some "Nieuw Bedrijf BV" } dbWithConfig).2
     "Nieuw Bedrijf BV" rfl⟩

theorem foldl_createProject_siteConfigs (l : List InsertProject) (db : DB) :
    (l.foldl (fun d p => (createProject p d).2) db).siteConfigs
      = db.siteConfigs := by
  induction l generalizing db with
  | nil => rfl
  | cons p t ih =>
    rw [List.foldl_cons, ih]
    rfl

theorem foldl_createProduct_siteConfigs (l : List InsertProduct) (db : DB) :
    (l.foldl (fun d p => (createProduct p d).2) db).siteConfigs
      = db.siteConfigs := by
  induction l generalizing db with
  | nil => rfl
  | cons p t ih =>
    rw [List.foldl_cons, ih]
    rfl

theorem seedProjects_siteConfigs (db : DB) :
    (seedProjects db).siteConfigs = db.siteConfigs := by
  unfold seedProjects
  split
  · exact foldl_createProject_siteConfigs demoProjects db
  · rfl

theorem seedProducts_siteConfigs (db : DB) :
    (seedProducts db).siteConfigs = db.siteConfigs := by
  unfold seedProducts
  split
  · exact foldl_createProduct_siteConfigs demoProducts db
  · rfl

/-- C7 fails on the code: with no configuration row stored, the read path
returns the absent result and creates nothing — `getSiteConfig` is a bare
`select ... limit 1` and `GET /api/config` just serializes its result. -/
theorem getConfig_read_does_not_create_counterexample :
    getSiteConfig emptyDB = none ∧
    (getConfigRoute emptyDB).payload = none ∧
    (getConfigRoute emptyDB).db = emptyDB :=
  ⟨rfl, rfl, rfl⟩

/-- C7 (amended): the configuration row is created not lazily by the first
read but at process start: on a store without a configuration row,
`getSiteConfig` returns `none` and `GET /api/config` leaves the store
unchanged, while the startup routine `initializeDefaults` inserts the
default configuration, after which the store holds exactly one row and a
read returns a configuration. -/
theorem config_created_at_startup_not_on_read (db : DB)
    (h : db.siteConfigs = []) :
    getSiteConfig db = none ∧
    (getConfigRoute db).db = db ∧
    (initializeDefaults db).siteConfigs.length = 1 ∧
    (getSiteConfig (initializeDefaults db)).isSome = true := by
  have hg : getSiteConfig db = none := by
    simp [getSiteConfig, h]
  have hseed : (initializeDefaults db).siteConfigs
      = [insertSiteConfigValues defaultSiteConfig db.nextSiteConfigId] := by
    unfold initializeDefaults
    rw [seedProducts_siteConfigs, seedProjects_siteConfigs]
    unfold seedConfig
    rw [hg]
    exact updateSiteConfig_siteConfigs_of_nil defaultSiteConfig db h
  refine ⟨hg, rfl, by simp [hseed], by simp [getSiteConfig, hseed]⟩

theorem config_created_at_startup_not_on_read_witness :
    getSiteConfig emptyDB = none ∧
    (getConfigRoute emptyDB).db = emptyDB ∧
    (initializeDefaults emptyDB).siteConfigs.length = 1 ∧
    (getSiteConfig (initializeDefaults emptyDB)).isSome = true :=
  config_created_at_startup_not_on_read emptyDB rfl

/-- C8: whatever `messageId` the request body carries, a reply created by
`POST /api/messages/:id/replies` stores the `:id` path parameter as its
`messageId` — the spread `{...req.body, messageId}` puts the path
parameter last, so it overrides any body value. -/
theorem reply_messageId_from_path (id : Nat) (b : ReplyBody) (db : DB) :
    ∀ rep, (postMessageReplyRoute id b db).payload = some rep →
      rep.messageId = some id := by
  intro rep h
  rcases hb : b.reply with _ | s
  · simp [postMessageReplyRoute, parseReplyBody, hb] at h
  · simp [postMessageReplyRoute, parseReplyBody, hb, createMessageReply] at h
    rw [← h]

theorem reply_messageId_from_path_witness :
    replyRowFromPath.messageId = some 1 :=
  reply_messageId_from_path 1 replyBodyWithForeignId emptyDB
    replyRowFromPath rfl

/-- C9: for a store containing a message with the given id (read or not),
`markMessageAsRead` reports success, touches no other table, changes no
message field other than `isRead` (which becomes `true` exactly on the
matching id), is idempotent — applying it again returns success and the
identical store — and the route `PUT /api/messages/:id/read` answers 200. -/
theorem markMessageAsRead_idempotent_frame (id : Nat) (db : DB)
    (h : ∃ m ∈ db.messages, m.id = id) :
    (markMessageAsRead id db).1 = true ∧
    (markMessageAsRead id db).2.siteConfigs = db.siteConfigs ∧
    (markMessageAsRead id db).2.projects = db.projects ∧
    (markMessageAsRead id db).2.products = db.products ∧
    (markMessageAsRead id db).2.messageReplies = db.messageReplies ∧
    (markMessageAsRead id db).2.messages.map
        (fun m => (m.id, m.name, m.email, m.subject, m.message, m.createdAt))
      = db.messages.map
        (fun m => (m.id, m.name, m.email, m.subject, m.message, m.createdAt)) ∧
    (markMessageAsRead id db).2.messages.map (fun m => m.isRead)
      = db.messages.map (fun m => if m.id = id then some true else m.isRead) ∧
    markMessageAsRead id (markMessageAsRead id db).2
      = (true, (markMessageAsRead id db).2) ∧
    (markMessageReadRoute id db).status = 200 := by
  obtain ⟨m, hm, hid⟩ := h
  have hany : (db.messages.any fun r => decide (r.id = id)) = true := by
    rw [List.any_eq_true]
    exact ⟨m, hm, by simp [hid]⟩
  have hmem2 : ({ m with isRead := some true } : MessageRow)
      ∈ db.messages.map
          (fun x => if x.id = id then { x with isRead := some true } else x) := by
    have he : ({ m with isRead := some true } : MessageRow)
        = (fun x => if x.id = id then { x with isRead := some true } else x) m := by
      simp [hid]
    rw [he]
    exact List.mem_map_of_mem _ hm
  have hff : db.messages.map
        ((fun x => if x.id = id then { x with isRead := some true } else x)
          ∘ (fun x => if x.id = id then { x with isRead := some true } else x))
      = db.messages.map
          (fun x => if x.id = id then { x with isRead := some true } else x) := by
    apply List.map_congr_left
    intro x _
    by_cases hx : x.id = id <;> simp [Function.comp, hx]
  refine ⟨by simp only [markMessageAsRead]; exact hany, rfl, rfl, rfl, rfl,
    ?_, ?_, ?_, ?_⟩
  · simp only [markMessageAsRead, List.map_map]
    apply List.map_congr_left
    intro x _
    by_cases hx : x.id = id <;> simp [hx]
  · simp only [markMessageAsRead, List.map_map]
    apply List.map_congr_left
    intro x _
    by_cases hx : x.id = id <;> simp [hx]
  · have h1 : (markMessageAsRead id (markMessageAsRead id db).2).1 = true := by
      simp only [markMessageAsRead]
      rw [List.any_eq_true]
      exact ⟨{ m with isRead := some true }, hmem2, by simp [hid]⟩
    have h2 : (markMessageAsRead id (markMessageAsRead id db).2).2
        = (markMessageAsRead id db).2 := by
      simp only [markMessageAsRead, List.map_map]
      rw [hff]
    exact Prod.ext h1 h2
  · simp [markMessageReadRoute, markMessageAsRead, hany]

theorem markMessageAsRead_idempotent_frame_witness :
    (markMessageAsRead 1 sampleDB).1 = true ∧
    (markMessageAsRead 1 sampleDB).2.siteConfigs = sampleDB.siteConfigs ∧
    (markMessageAsRead 1 sampleDB).2.projects = sampleDB.projects ∧
    (markMessageAsRead 1 sampleDB).2.products = sampleDB.products ∧
    (markMessageAsRead 1 sampleDB).2.messageReplies
      = sampleDB.messageReplies ∧
    (markMessageAsRead 1 sampleDB).2.messages.map
        (fun m => (m.id, m.name, m.email, m.subject, m.message, m.createdAt))
      = sampleDB.messages.map
        (fun m => (m.id, m.name, m.email, m.subject, m.message, m.createdAt)) ∧
    (markMessageAsRead 1 sampleDB).2.messages.map (fun m => m.isRead)
      = sampleDB.messages.map
          (fun m => if m.id = 1 then some true else m.isRead) ∧
    markMessageAsRead 1 (markMessageAsRead 1 sampleDB).2
      = (true, (markMessageAsRead 1 sampleDB).2) ∧
    (markMessageReadRoute 1 sampleDB).status = 200 :=
  markMessageAsRead_idempotent_frame 1 sampleDB
    ⟨sampleMessage, by simp [sampleDB], rfl⟩

/-- C10: for a message identifier matching no stored message — under the
foreign-key discipline that every reply's non-NULL `messageId` references
a stored message — `GET /api/messages/:id/replies` answers 200 with the
empty list rather than 404, leaving the store unchanged: the handler
performs no existence check on the parent message. -/
theorem replies_of_missing_message_empty_200 (id : Nat) (db : DB)
    (hfk : ∀ r ∈ db.messageReplies, ∀ mid, r.messageId = some mid →
        ∃ m ∈ db.messages, m.id = mid)
    (habs : ∀ m ∈ db.messages, m.id ≠ id) :
    (getMessageRepliesRoute id db).status = 200 ∧
    (getMessageRepliesRoute id db).payload = some [] ∧
    (getMessageRepliesRoute id db).db = db := by
  have hfil : db.messageReplies.filter
      (fun r => decide (r.messageId = some id)) = [] := by
    rw [List.filter_eq_nil_iff]
    intro r hr
    simp only [decide_eq_true_eq]
    intro hmid
    obtain ⟨m, hm, hmi⟩ := hfk r hr id hmid
    exact habs m hm hmi
  refine ⟨rfl, ?_, rfl⟩
  simp [getMessageRepliesRoute, getMessageReplies, hfil]

theorem replies_of_missing_message_empty_200_witness :
    (getMessageRepliesRoute 2 sampleDB).status = 200 ∧
    (getMessageRepliesRoute 2 sampleDB).payload = some [] ∧
    (getMessageRepliesRoute 2 sampleDB).db = sampleDB :=
  replies_of_missing_message_empty_200 2 sampleDB
    (by
      intro r hr mid hmid
      simp only [sampleDB, List.mem_singleton] at hr
      subst hr
      simp only [sampleReply, Option.some.injEq] at hmid
      exact ⟨sampleMessage, by simp [sampleDB], by simp [sampleMessage, ← hmid]⟩)
    (by simp [sampleDB, sampleMessage])

end WebsiteBuilder
